import Mathlib

/-!
Verification development for the chat-agent backend (src/backend/agent).

The embedding follows the source files:
  * models.py    — TokenUsage, AgentProfile
  * utils.py     — fetch_people, extract_token_usage, track_and_log_token_usage
  * prompts.py   — format_follow_up
  * sessions.py  — agent_sessions (the session store)
  * chat.py      — process_chat_message, process_chat_message_stream

Python strings are modelled as Lean Strings; the Python string operations
used by the code (strip, upper, startswith, slicing, len, concatenation)
are embedded as explicit functions over the character list so that they
can be reasoned about directly.

The LLM runnable and the HTTP request are external collaborators; they are
modelled as oracles passed in as arguments (a deterministic function for
the model, an Except value for the HTTP request outcome).  Per the
collaborator contract, a successful invocation appends the (user,
assistant) turn pair to the session history, and a failed invocation
raises, leaving the history untouched.
-/

namespace ChatAgent

/-! ## Python string primitives -/

/-- Removes leading whitespace characters, as Python str.lstrip does. -/
def pyStripLeftChars : List Char → List Char
  | [] => []
  | c :: cs => if c.isWhitespace then pyStripLeftChars cs else c :: cs

/-- Embeds Python str.strip(): removes leading and trailing whitespace. -/
def pyStrip (s : String) : String :=
  ⟨(pyStripLeftChars (pyStripLeftChars s.data).reverse).reverse⟩

/-- Embeds Python str.upper() (the code only compares ASCII letters). -/
def pyUpper (s : String) : String :=
  ⟨s.data.map Char.toUpper⟩

/-- Helper for pyStartsWith over character lists. -/
def charsStartWith : List Char → List Char → Bool
  | _, [] => true
  | [], _ :: _ => false
  | c :: cs, p :: ps => c = p && charsStartWith cs ps

/-- Embeds Python s.startswith(p). -/
def pyStartsWith (s p : String) : Bool :=
  charsStartWith s.data p.data

/-- Embeds the Python slice s[n:]. -/
def pySliceFrom (n : Nat) (s : String) : String :=
  ⟨s.data.drop n⟩

/-- Embeds Python len(s). -/
def pyLen (s : String) : Nat :=
  s.data.length

/-- Embeds the accumulation of streamed fragments via repeated +=. -/
def pyConcat (l : List String) : String :=
  String.join l

/-! ## models.py -/

/-- models.py TokenUsage: token usage tracking for a session. -/
structure TokenUsage where
  input_tokens : Nat := 0
  output_tokens : Nat := 0
deriving DecidableEq, Repr

/-- models.py TokenUsage.total_tokens (a derived read). -/
def TokenUsage.total_tokens (t : TokenUsage) : Nat :=
  t.input_tokens + t.output_tokens

/-- models.py TokenUsage.add: add tokens to the cumulative totals. -/
def TokenUsage.add (t : TokenUsage) (input_tokens output_tokens : Nat) : TokenUsage :=
  { input_tokens := t.input_tokens + input_tokens
    output_tokens := t.output_tokens + output_tokens }

/-- models.py TokenUsage.reset: reset token counts to zero. -/
def TokenUsage.reset (_ : TokenUsage) : TokenUsage :=
  { input_tokens := 0, output_tokens := 0 }

/-- models.py AgentProfile. -/
structure AgentProfile where
  agent_id : String
  agent_name : String
  location : String
  listings : List String
deriving DecidableEq, Repr

/-! ## Collaborator model: the LLM runnable -/

/-- One conversation turn stored in the ChatMessageHistory. -/
structure Turn where
  role : String
  text : String
deriving DecidableEq, Repr

/-- The response object returned by a successful runnable.invoke:
its content and the token-usage metadata when the provider reports it
(None models metadata that is missing or unreadable). -/
structure ModelResponse where
  content : String
  usage : Option (Nat × Nat)
deriving DecidableEq, Repr

/-- The model collaborator: a deterministic oracle mapping the question and
the current history to either a response object or a raised error. -/
def Model : Type :=
  String → List Turn → Except String ModelResponse

/-- Collaborator contract for runnable.invoke (the runnable wraps the LLM
with RunnableWithMessageHistory): on success the user message and the
assistant reply are appended to the session history; on failure the
exception propagates and the history is left unchanged. -/
def runInvoke (model : Model) (history : List Turn) (question : String) :
    Except String (ModelResponse × List Turn) :=
  match model question history with
  | Except.ok r =>
      Except.ok (r, history ++ [⟨"user", question⟩, ⟨"assistant", r.content⟩])
  | Except.error e => Except.error e

/-! ## utils.py -/

/-- utils.py fetch_people: the HTTP request outcome is an oracle; on
success the body text is returned, and any exception is caught and turned
into an error-describing string (the function itself never raises). -/
def fetch_people (requestResult : Except String String) : String :=
  match requestResult with
  | Except.ok text => text
  | Except.error e => "Error fetching data: " ++ e

/-- utils.py extract_token_usage: reads the usage metadata from the
response object, treating absent metadata as zero for both counters. -/
def extract_token_usage (r : ModelResponse) : Nat × Nat :=
  r.usage.getD (0, 0)

/-- utils.py track_and_log_token_usage: extracts the pair for this
invocation, adds it to the session TokenUsage, and returns the pair
(first component) together with the updated ledger (second component). -/
def track_and_log_token_usage (r : ModelResponse) (t : TokenUsage) :
    (Nat × Nat) × TokenUsage :=
  let p := extract_token_usage r
  (p, t.add p.1 p.2)

/-! ## prompts.py -/

/-- prompts.py format_follow_up: the follow-up message embedding the
query and the processed fetch results. -/
def format_follow_up (query processed_data : String) : String :=
  "Here are the search results for \x27" ++ query ++ "\x27: " ++ processed_data ++
    "\nPlease summarise the key opportunities for the agent."

/-! ## sessions.py and the get-or-create path of chat.py -/

/-- One entry of the agent_sessions table: the (runnable, history, profile,
token_usage) tuple.  The runnable, the history object and the TokenUsage
object are Python objects handled by reference; their identities are
modelled by the *_id fields, while history and token_usage also carry the
current contents of those shared objects. -/
structure SessionEntry where
  runnable_id : Nat
  history_id : Nat
  ledger_id : Nat
  history : List Turn
  profile : AgentProfile
  token_usage : TokenUsage
deriving DecidableEq, Repr

/-- sessions.py agent_sessions: the session table, keyed by session id. -/
def Store : Type :=
  String → Option SessionEntry

/-- The get-or-create path of process_chat_message (chat.py lines 42-56):
on a miss, create_agent builds a fresh runnable and an empty
ChatMessageHistory, a fresh TokenUsage is allocated, and the tuple is
stored; on a hit, the stored tuple is rewritten with the new profile while
the runnable, history and TokenUsage objects are reused.  The fresh ids
stand for the identities of the newly allocated objects. -/
def get_or_create (store : Store) (sid : String) (profile : AgentProfile)
    (fresh_runnable_id fresh_history_id fresh_ledger_id : Nat) :
    SessionEntry × Store :=
  match store sid with
  | none =>
      let e : SessionEntry :=
        { runnable_id := fresh_runnable_id
          history_id := fresh_history_id
          ledger_id := fresh_ledger_id
          history := []
          profile := profile
          token_usage := {} }
      (e, fun s => if s = sid then some e else store s)
  | some prev =>
      let e := { prev with profile := profile }
      (e, fun s => if s = sid then some e else store s)

/-! ## chat.py process_chat_message -/

/-- The externally observable calls made during one dispatch, in order. -/
inductive Event where
  | modelInvoke (idx : Nat) (question : String)
  | fetchCall (query : String)
deriving DecidableEq, Repr

/-- True exactly on fetch-gateway calls. -/
def Event.isFetch : Event → Bool
  | Event.fetchCall _ => true
  | _ => false

/-- True exactly on model invocations. -/
def Event.isInvoke : Event → Bool
  | Event.modelInvoke _ _ => true
  | _ => false

/-- The outcome of process_chat_message: either the returned triple
together with the session entry as left by the run, or a raised error
(again with the session entry as it stands at the raise).  The events
list records every model invocation and fetch call made, in order. -/
inductive DispatchResult where
  | ok (response : String) (request_input_tokens request_output_tokens : Nat)
      (entry : SessionEntry) (events : List Event)
  | raised (err : String) (entry : SessionEntry) (events : List Event)
deriving DecidableEq, Repr

/-- The session entry as left by the dispatch (also on a raise). -/
def DispatchResult.entry : DispatchResult → SessionEntry
  | DispatchResult.ok _ _ _ e _ => e
  | DispatchResult.raised _ e _ => e

/-- chat.py lines 102-107: processed_data is process_fetch_data(data,
query) when the hook is given, else mask_sensitive_data(data). -/
def apply_processor (process_fetch_data : Option (String → String → String))
    (mask_sensitive_data : String → String) (data query : String) : String :=
  match process_fetch_data with
  | some f => f data query
  | none => mask_sensitive_data data

/-- chat.py process_chat_message, lines 58-142 (after the get-or-create
step): first invocation, strip, token accounting, marker classification,
optional single fetch-and-reinvoke round.  Besides the DispatchResult it
returns the (input, output) pairs reported for the invocations performed,
in order — the values returned by extract_token_usage at each
track_and_log_token_usage call. -/
def dispatch_core (model : Model) (fetchResult : Except String String)
    (process_fetch_data : Option (String → String → String))
    (mask_sensitive_data : String → String)
    (question : String) (entry0 : SessionEntry) :
    DispatchResult × List (Nat × Nat) :=
  match runInvoke model entry0.history question with
  | Except.error e =>
      (DispatchResult.raised e entry0 [Event.modelInvoke 1 question], [])
  | Except.ok (robj, history1) =>
      let response := pyStrip robj.content
      let acct1 := track_and_log_token_usage robj entry0.token_usage
      let pair1 := acct1.1
      let entry1 : SessionEntry :=
        { entry0 with history := history1, token_usage := acct1.2 }
      if pyStartsWith (pyUpper response) "FETCH" then
        let query := pyStrip (pySliceFrom 6 response)
        let data := fetch_people fetchResult
        let processed_data := apply_processor process_fetch_data mask_sensitive_data data query
        let follow_up := format_follow_up query processed_data
        match runInvoke model entry1.history follow_up with
        | Except.error e =>
            (DispatchResult.raised e entry1
              [Event.modelInvoke 1 question, Event.fetchCall query,
               Event.modelInvoke 2 follow_up],
             [pair1])
        | Except.ok (robj2, history2) =>
            let response2 := pyStrip robj2.content
            let acct2 := track_and_log_token_usage robj2 acct1.2
            let entry2 : SessionEntry :=
              { entry1 with history := history2, token_usage := acct2.2 }
            (DispatchResult.ok response2 (pair1.1 + acct2.1.1) (pair1.2 + acct2.1.2)
              entry2
              [Event.modelInvoke 1 question, Event.fetchCall query,
               Event.modelInvoke 2 follow_up],
             [pair1, acct2.1])
      else
        (DispatchResult.ok response pair1.1 pair1.2 entry1
          [Event.modelInvoke 1 question], [pair1])

/-- chat.py process_chat_message: get-or-create, then the dispatch; the
store afterwards holds the session entry as left by the dispatch (the
history and TokenUsage objects are shared by reference with the stored
tuple, so their in-place mutations are visible through the store). -/
def process_chat_message (model : Model) (fetchResult : Except String String)
    (process_fetch_data : Option (String → String → String))
    (mask_sensitive_data : String → String)
    (store : Store) (profile : AgentProfile) (question sid : String)
    (i1 i2 i3 : Nat) :
    (DispatchResult × List (Nat × Nat)) × Store :=
  let gc := get_or_create store sid profile i1 i2 i3
  let r := dispatch_core model fetchResult process_fetch_data mask_sensitive_data question gc.1
  (r, fun s => if s = sid then some r.1.entry else gc.2 s)

/-! ## chat.py process_chat_message_stream -/

/-- One streamed model invocation as observed through the
TokenStreamHandler callback: the fragments pushed by on_llm_new_token, in
order, and the terminal token-usage metadata found in the final LLMResult
when the provider makes it available (None models a missing or unreadable
llm_output/token_usage). -/
structure StreamInvocation where
  fragments : List String
  usage : Option (Nat × Nat)
deriving DecidableEq, Repr

/-- One element yielded by process_chat_message_stream:
(token_chunk, input_tokens, output_tokens). -/
structure StreamElement where
  text : String
  input_tokens : Nat
  output_tokens : Nat
deriving DecidableEq, Repr

/-- The observable trace of the streaming dispatch, in order: each yield
to the caller, and the call to the fetch gateway. -/
inductive StreamEvent where
  | emit (e : StreamElement)
  | fetchCall (query : String)
deriving DecidableEq, Repr

/-- The elements actually yielded to the caller, in order. -/
def yieldsOf (trace : List StreamEvent) : List StreamElement :=
  trace.filterMap fun ev =>
    match ev with
    | StreamEvent.emit e => some e
    | StreamEvent.fetchCall _ => none

/-- chat.py lines 283-300 and 363-378: per-invocation token accounting of
the streaming path.  When the terminal metadata is present, its pair is
added to the session TokenUsage and to the request totals; when it is
absent, the session ledger is left untouched and the request output total
is increased by the estimate len(response) // 4 (response being the
stripped accumulated text), the input side staying at zero.  Returns the
pair added to the request totals and the updated ledger. -/
def stream_token_accounting (usage : Option (Nat × Nat)) (response : String)
    (t : TokenUsage) : (Nat × Nat) × TokenUsage :=
  match usage with
  | some (i, o) => ((i, o), t.add i o)
  | none => ((0, pyLen response / 4), t)

/-- chat.py process_chat_message_stream, lines 225-383 (after the
get-or-create step).  Every fragment of the first invocation is yielded
with counts (0, 0); then the first invocation's accounting runs; on the
marker the fetch round happens and every fragment of the second
invocation is yielded with counts (0, 0); finally the single element
("", request_input_tokens, request_output_tokens) is yielded.  Returns
the trace, the session entry as left by the run, and the (input, output)
pairs reported by the provider for the invocations performed. -/
def stream_core (inv1 inv2 : StreamInvocation) (fetchResult : Except String String)
    (process_fetch_data : Option (String → String → String))
    (mask_sensitive_data : String → String)
    (question : String) (entry0 : SessionEntry) :
    List StreamEvent × SessionEntry × List (Nat × Nat) :=
  let accumulated := pyConcat inv1.fragments
  let events1 := inv1.fragments.map fun t => StreamEvent.emit ⟨t, 0, 0⟩
  let history1 := entry0.history ++ [⟨"user", question⟩, ⟨"assistant", accumulated⟩]
  let response := pyStrip accumulated
  let acct1 := stream_token_accounting inv1.usage response entry0.token_usage
  if pyStartsWith (pyUpper response) "FETCH" then
    let query := pyStrip (pySliceFrom 6 response)
    let data := fetch_people fetchResult
    let processed_data := apply_processor process_fetch_data mask_sensitive_data data query
    let follow_up := format_follow_up query processed_data
    let accumulated2 := pyConcat inv2.fragments
    let events2 := inv2.fragments.map fun t => StreamEvent.emit ⟨t, 0, 0⟩
    let history2 := history1 ++ [⟨"user", follow_up⟩, ⟨"assistant", accumulated2⟩]
    let response2 := pyStrip accumulated2
    let acct2 := stream_token_accounting inv2.usage response2 acct1.2
    let entry2 : SessionEntry :=
      { entry0 with history := history2, token_usage := acct2.2 }
    (events1 ++ [StreamEvent.fetchCall query] ++ events2 ++
       [StreamEvent.emit ⟨"", acct1.1.1 + acct2.1.1, acct1.1.2 + acct2.1.2⟩],
     entry2,
     (inv1.usage.toList ++ inv2.usage.toList))
  else
    let entry1 : SessionEntry :=
      { entry0 with history := history1, token_usage := acct1.2 }
    (events1 ++ [StreamEvent.emit ⟨"", acct1.1.1, acct1.1.2⟩],
     entry1,
     inv1.usage.toList)

/-- chat.py process_chat_message_stream: get-or-create, then the streaming
dispatch; the store afterwards holds the entry as left by the run. -/
def process_chat_message_stream (inv1 inv2 : StreamInvocation)
    (fetchResult : Except String String)
    (process_fetch_data : Option (String → String → String))
    (mask_sensitive_data : String → String)
    (store : Store) (profile : AgentProfile) (question sid : String)
    (i1 i2 i3 : Nat) :
    (List StreamEvent × SessionEntry × List (Nat × Nat)) × Store :=
  let gc := get_or_create store sid profile i1 i2 i3
  let r := stream_core inv1 inv2 fetchResult process_fetch_data mask_sensitive_data question gc.1
  (r, fun s => if s = sid then some r.2.1 else gc.2 s)

/-! ## Dispatch runs against one session

A "dispatch run against a session" is one call of process_chat_message or
process_chat_message_stream whose session id resolves to that session: the
get-or-create path then hands the dispatch the stored entry with its
profile replaced by the profile of the request. -/

/-- The inputs of one non-streaming run: the oracles and arguments of one
process_chat_message call. -/
structure PlainRun where
  question : String
  model : Model
  fetchResult : Except String String
  process_fetch_data : Option (String → String → String)
  mask_sensitive_data : String → String
  profile : AgentProfile

/-- The inputs of one streaming run: the oracles and arguments of one
process_chat_message_stream call. -/
structure StreamRun where
  question : String
  inv1 : StreamInvocation
  inv2 : StreamInvocation
  fetchResult : Except String String
  process_fetch_data : Option (String → String → String)
  mask_sensitive_data : String → String
  profile : AgentProfile

/-- One dispatch run of either variant. -/
inductive Run where
  | plain (r : PlainRun)
  | stream (r : StreamRun)

/-- The session entry after one run against the session (the run first
replaces the stored profile, as the get-or-create path does on a hit). -/
def Run.apply : Run → SessionEntry → SessionEntry
  | Run.plain r, e =>
      (dispatch_core r.model r.fetchResult r.process_fetch_data r.mask_sensitive_data
        r.question { e with profile := r.profile }).1.entry
  | Run.stream r, e =>
      (stream_core r.inv1 r.inv2 r.fetchResult r.process_fetch_data r.mask_sensitive_data
        r.question { e with profile := r.profile }).2.1

/-- The (input, output) pairs reported for the invocations performed in
one run against the session. -/
def Run.reported : Run → SessionEntry → List (Nat × Nat)
  | Run.plain r, e =>
      (dispatch_core r.model r.fetchResult r.process_fetch_data r.mask_sensitive_data
        r.question { e with profile := r.profile }).2
  | Run.stream r, e =>
      (stream_core r.inv1 r.inv2 r.fetchResult r.process_fetch_data r.mask_sensitive_data
        r.question { e with profile := r.profile }).2.2

/-- The session entry after a sequence of runs against the session. -/
def applyRuns : List Run → SessionEntry → SessionEntry
  | [], e => e
  | r :: rs, e => applyRuns rs (r.apply e)

/-- All pairs reported across a sequence of runs against the session. -/
def reportedRuns : List Run → SessionEntry → List (Nat × Nat)
  | [], _ => []
  | r :: rs, e => r.reported e ++ reportedRuns rs (r.apply e)

/-! ## Derived accessors and spec-side definitions -/

/-- The events of a dispatch outcome (also of a raised one). -/
def DispatchResult.events : DispatchResult → List Event
  | DispatchResult.ok _ _ _ _ evs => evs
  | DispatchResult.raised _ _ evs => evs

/-- The (input, output) pair a streaming dispatch reports to its caller in
the final yielded element, computed from the two invocations alone (the
pair added to the request totals by stream_token_accounting does not
depend on the ledger argument). -/
def stream_request_totals (inv1 inv2 : StreamInvocation) : Nat × Nat :=
  let response := pyStrip (pyConcat inv1.fragments)
  let p1 := (stream_token_accounting inv1.usage response {}).1
  if pyStartsWith (pyUpper response) "FETCH" then
    let p2 := (stream_token_accounting inv2.usage (pyStrip (pyConcat inv2.fragments)) {}).1
    (p1.1 + p2.1, p1.2 + p2.2)
  else p1

/-- Spec-side definition, following the spec text for the fetch query:
"extract the substring after the marker as the fetch query", the marker
being FETCH optionally followed by a colon, with surrounding whitespace
stripped.  To be compared with the query the code computes. -/
def spec_fetch_query (response : String) : String :=
  if pyStartsWith (pySliceFrom 5 response) ":" then
    pyStrip (pySliceFrom 6 response)
  else
    pyStrip (pySliceFrom 5 response)

/-! ## Concrete fixtures used by witnesses and counterexamples -/

/-- A concrete profile. -/
def wProfile : AgentProfile :=
  { agent_id := "a1", agent_name := "Alice", location := "Bondi", listings := [] }

/-- A concrete session entry with empty history and zero ledger. -/
def wEntry : SessionEntry :=
  { runnable_id := 7, history_id := 8, ledger_id := 9
    history := [], profile := wProfile, token_usage := {} }

/-- A model whose first reply asks for a fetch and whose follow-up reply
itself begins with the marker again. -/
def wModelFetch : Model := fun q _ =>
  if q = "ask" then Except.ok ⟨"  FETCH: Bondi ", some (1, 2)⟩
  else Except.ok ⟨"FETCH again", some (3, 4)⟩

/-- A model whose reply carries no marker. -/
def wModelPlain : Model := fun _ _ =>
  Except.ok ⟨" Thanks for your question. ", some (5, 6)⟩

/-- A model that raises on the first invocation. -/
def wModelBoom : Model := fun _ _ =>
  Except.error "provider timeout"

/-- A model that asks for a fetch and then raises on the follow-up. -/
def wModelBoom2 : Model := fun q _ =>
  if q = "ask" then Except.ok ⟨"FETCH: Coogee", some (1, 2)⟩
  else Except.error "provider timeout"

/-- A model whose reply starts with FETCH directly followed by a
non-colon, non-whitespace character. -/
def wModelGlued : Model := fun q _ =>
  if q = "ask" then Except.ok ⟨"FETCHXY", some (1, 1)⟩
  else Except.ok ⟨"done", some (1, 1)⟩

/-! ## Helper lemmas -/

/-- The ledger written by stream_token_accounting grows by exactly the
reported pair (toList of the optional metadata), and not at all when the
metadata is absent. -/
theorem stream_acct_ledger (u : Option (Nat × Nat)) (resp : String) (t : TokenUsage) :
    (stream_token_accounting u resp t).2.input_tokens
        = t.input_tokens + ((u.toList.map Prod.fst).sum)
    ∧ (stream_token_accounting u resp t).2.output_tokens
        = t.output_tokens + ((u.toList.map Prod.snd).sum) := by
  cases u with
  | none => simp [stream_token_accounting]
  | some p =>
      obtain ⟨i, o⟩ := p
      simp [stream_token_accounting, TokenUsage.add]

/-- The pair added to the request totals by stream_token_accounting does
not depend on the ledger argument. -/
theorem stream_acct_fst (u : Option (Nat × Nat)) (resp : String) (t t' : TokenUsage) :
    (stream_token_accounting u resp t).1 = (stream_token_accounting u resp t').1 := by
  cases u with
  | none => rfl
  | some p => obtain ⟨i, o⟩ := p; rfl

/-- One dispatch run (of either variant) grows the session ledger by
exactly the sum of the pairs reported for the invocations it performed. -/
theorem run_ledger_step (r : Run) (e : SessionEntry) :
    (r.apply e).token_usage.input_tokens
        = e.token_usage.input_tokens + ((r.reported e).map Prod.fst).sum
    ∧ (r.apply e).token_usage.output_tokens
        = e.token_usage.output_tokens + ((r.reported e).map Prod.snd).sum := by
  cases r with
  | plain pr =>
      simp only [Run.apply, Run.reported, dispatch_core, runInvoke]
      cases h1 : pr.model pr.question ({ e with profile := pr.profile }).history with
      | error err => simp [DispatchResult.entry]
      | ok robj =>
          simp only [track_and_log_token_usage]
          split
          · split
            · simp [DispatchResult.entry, TokenUsage.add]
            · simp [DispatchResult.entry, TokenUsage.add]
              omega
          · simp [DispatchResult.entry, TokenUsage.add]
  | stream sr =>
      simp only [Run.apply, Run.reported, stream_core]
      split
      · have h1 := stream_acct_ledger sr.inv1.usage
          (pyStrip (pyConcat sr.inv1.fragments)) ({ e with profile := sr.profile }).token_usage
        have h2 := stream_acct_ledger sr.inv2.usage
          (pyStrip (pyConcat sr.inv2.fragments))
          (stream_token_accounting sr.inv1.usage
            (pyStrip (pyConcat sr.inv1.fragments))
            ({ e with profile := sr.profile }).token_usage).2
        simp only at h1 h2
        simp [List.map_append, List.sum_append]
        omega
      · have h1 := stream_acct_ledger sr.inv1.usage
          (pyStrip (pyConcat sr.inv1.fragments)) ({ e with profile := sr.profile }).token_usage
        simp only at h1
        simp
        omega

/-! ## Claim C2 -/

/-- C2: the session TokenUsage ledger always satisfies
total_tokens = input_tokens + output_tokens (total_tokens is a derived
read), and after any number of dispatch runs against a session — in
either the plain or the streaming variant — its input and output counters
have grown from their initial values by exactly the sums of the (input,
output) pairs reported for the invocations performed in those runs. -/
theorem token_ledger_conservation :
    (∀ t : TokenUsage, t.total_tokens = t.input_tokens + t.output_tokens)
    ∧ ∀ (runs : List Run) (e : SessionEntry),
        (applyRuns runs e).token_usage.input_tokens
            = e.token_usage.input_tokens + ((reportedRuns runs e).map Prod.fst).sum
        ∧ (applyRuns runs e).token_usage.output_tokens
            = e.token_usage.output_tokens + ((reportedRuns runs e).map Prod.snd).sum := by
  constructor
  · intro t; rfl
  · intro runs
    induction runs with
    | nil => intro e; simp [applyRuns, reportedRuns]
    | cons r rs ih =>
        intro e
        obtain ⟨hs1, hs2⟩ := run_ledger_step r e
        obtain ⟨hr1, hr2⟩ := ih (r.apply e)
        simp only [applyRuns, reportedRuns, List.map_append, List.sum_append]
        constructor <;> omega

/-! ## Claim C3 -/

/-- C3: calling the get-or-create path twice with the same session id
returns the same session tuple components — the same runnable, the same
history object and the same TokenUsage object (identities and contents
untouched) — even when the profile argument differs between the calls;
the stored tuple changes only in its profile slot, which is replaced by
the second call's profile. -/
theorem session_store_reuse (store : Store) (sid : String) (p1 p2 : AgentProfile)
    (a b c d e f : Nat) :
    (get_or_create ((get_or_create store sid p1 a b c).2) sid p2 d e f).1
        = { (get_or_create store sid p1 a b c).1 with profile := p2 }
    ∧ (get_or_create ((get_or_create store sid p1 a b c).2) sid p2 d e f).2 sid
        = some { (get_or_create store sid p1 a b c).1 with profile := p2 } := by
  cases h : store sid <;> simp [get_or_create, h]

/-! ## Claim C1 -/

/-- Helper: the fetch round of the dispatch body (chat.py lines 58-142)
performs exactly one fetch and one second invocation and returns the
stripped second response. -/
theorem dispatch_core_fetch_round (model : Model) (fetchResult : Except String String)
    (pfd : Option (String → String → String)) (mask : String → String)
    (question : String) (entry0 : SessionEntry) (r1 r2 : ModelResponse)
    (query follow_up : String)
    (h1 : model question entry0.history = Except.ok r1)
    (hM : pyStartsWith (pyUpper (pyStrip r1.content)) "FETCH" = true)
    (hq : query = pyStrip (pySliceFrom 6 (pyStrip r1.content)))
    (hfu : follow_up = format_follow_up query
        (apply_processor pfd mask (fetch_people fetchResult) query))
    (h2 : model follow_up
        (entry0.history ++ [⟨"user", question⟩, ⟨"assistant", r1.content⟩])
        = Except.ok r2) :
    dispatch_core model fetchResult pfd mask question entry0
      = (DispatchResult.ok (pyStrip r2.content)
          ((extract_token_usage r1).1 + (extract_token_usage r2).1)
          ((extract_token_usage r1).2 + (extract_token_usage r2).2)
          { entry0 with
              history := entry0.history
                ++ [⟨"user", question⟩, ⟨"assistant", r1.content⟩]
                ++ [⟨"user", follow_up⟩, ⟨"assistant", r2.content⟩]
              token_usage :=
                (entry0.token_usage.add (extract_token_usage r1).1
                  (extract_token_usage r1).2).add
                  (extract_token_usage r2).1 (extract_token_usage r2).2 }
          [Event.modelInvoke 1 question, Event.fetchCall query,
           Event.modelInvoke 2 follow_up],
         [extract_token_usage r1, extract_token_usage r2])
    ∧ (dispatch_core model fetchResult pfd mask question entry0).1.events.countP
        Event.isFetch = 1
    ∧ (dispatch_core model fetchResult pfd mask question entry0).1.events.countP
        Event.isInvoke = 2 := by
  subst hq hfu
  have main :
      dispatch_core model fetchResult pfd mask question entry0
        = (DispatchResult.ok (pyStrip r2.content)
            ((extract_token_usage r1).1 + (extract_token_usage r2).1)
            ((extract_token_usage r1).2 + (extract_token_usage r2).2)
            { entry0 with
                history := entry0.history
                  ++ [⟨"user", question⟩, ⟨"assistant", r1.content⟩]
                  ++ [⟨"user",
                        format_follow_up (pyStrip (pySliceFrom 6 (pyStrip r1.content)))
                          (apply_processor pfd mask (fetch_people fetchResult)
                            (pyStrip (pySliceFrom 6 (pyStrip r1.content))))⟩,
                      ⟨"assistant", r2.content⟩]
                token_usage :=
                  (entry0.token_usage.add (extract_token_usage r1).1
                    (extract_token_usage r1).2).add
                    (extract_token_usage r2).1 (extract_token_usage r2).2 }
            [Event.modelInvoke 1 question,
             Event.fetchCall (pyStrip (pySliceFrom 6 (pyStrip r1.content))),
             Event.modelInvoke 2
               (format_follow_up (pyStrip (pySliceFrom 6 (pyStrip r1.content)))
                 (apply_processor pfd mask (fetch_people fetchResult)
                   (pyStrip (pySliceFrom 6 (pyStrip r1.content)))))],
           [extract_token_usage r1, extract_token_usage r2]) := by
    simp [dispatch_core, runInvoke, h1, hM, h2, track_and_log_token_usage,
      List.append_assoc]
  refine ⟨main, ?_, ?_⟩ <;>
    simp [main, DispatchResult.events, List.countP_cons, Event.isFetch, Event.isInvoke]

/-- C1: whenever the stripped first response begins case-insensitively
with FETCH, process_chat_message performs exactly one fetch-gateway call
and exactly one second model invocation (the event trace is exactly
[first invocation, fetch, second invocation]: one fetch event, two
invocation events), and the stripped second response is returned as final
— for every second response r2, including one that itself begins with the
marker; no third invocation or second fetch appears in the trace. -/
theorem fetch_round_single (model : Model) (fetchResult : Except String String)
    (pfd : Option (String → String → String)) (mask : String → String)
    (store : Store) (profile : AgentProfile) (question sid : String)
    (i1 i2 i3 : Nat) (entry0 : SessionEntry) (r1 r2 : ModelResponse)
    (query follow_up : String)
    (hE : (get_or_create store sid profile i1 i2 i3).1 = entry0)
    (h1 : model question entry0.history = Except.ok r1)
    (hM : pyStartsWith (pyUpper (pyStrip r1.content)) "FETCH" = true)
    (hq : query = pyStrip (pySliceFrom 6 (pyStrip r1.content)))
    (hfu : follow_up = format_follow_up query
        (apply_processor pfd mask (fetch_people fetchResult) query))
    (h2 : model follow_up
        (entry0.history ++ [⟨"user", question⟩, ⟨"assistant", r1.content⟩])
        = Except.ok r2) :
    (process_chat_message model fetchResult pfd mask store profile question sid i1 i2 i3).1
      = (DispatchResult.ok (pyStrip r2.content)
          ((extract_token_usage r1).1 + (extract_token_usage r2).1)
          ((extract_token_usage r1).2 + (extract_token_usage r2).2)
          { entry0 with
              history := entry0.history
                ++ [⟨"user", question⟩, ⟨"assistant", r1.content⟩]
                ++ [⟨"user", follow_up⟩, ⟨"assistant", r2.content⟩]
              token_usage :=
                (entry0.token_usage.add (extract_token_usage r1).1
                  (extract_token_usage r1).2).add
                  (extract_token_usage r2).1 (extract_token_usage r2).2 }
          [Event.modelInvoke 1 question, Event.fetchCall query,
           Event.modelInvoke 2 follow_up],
         [extract_token_usage r1, extract_token_usage r2])
    ∧ (process_chat_message model fetchResult pfd mask store profile question sid
        i1 i2 i3).1.1.events.countP Event.isFetch = 1
    ∧ (process_chat_message model fetchResult pfd mask store profile question sid
        i1 i2 i3).1.1.events.countP Event.isInvoke = 2 := by
  subst hE
  exact dispatch_core_fetch_round model fetchResult pfd mask question
    (get_or_create store sid profile i1 i2 i3).1 r1 r2 query follow_up h1 hM hq hfu h2

/-- Witness for C1 at a concrete model whose follow-up reply itself starts
with the marker: the trace still shows exactly one fetch and two
invocations. -/
theorem fetch_round_single_witness :
    (process_chat_message wModelFetch (Except.ok "[]") none id (fun _ => none)
        wProfile "ask" "s1" 7 8 9).1.1.events.countP Event.isFetch = 1
    ∧ (process_chat_message wModelFetch (Except.ok "[]") none id (fun _ => none)
        wProfile "ask" "s1" 7 8 9).1.1.events.countP Event.isInvoke = 2 := by
  have h := fetch_round_single wModelFetch (Except.ok "[]") none id (fun _ => none)
    wProfile "ask" "s1" 7 8 9 wEntry
    ⟨"  FETCH: Bondi ", some (1, 2)⟩ ⟨"FETCH again", some (3, 4)⟩
    "Bondi"
    (format_follow_up "Bondi" (apply_processor none id (fetch_people (Except.ok "[]")) "Bondi"))
    rfl rfl rfl rfl rfl rfl
  exact ⟨h.2.1, h.2.2⟩

/-! ## Claim C6 -/

/-- Helper: the no-marker case of the dispatch body performs exactly one
invocation and returns the stripped response. -/
theorem dispatch_core_analysis_mode (model : Model) (fetchResult : Except String String)
    (pfd : Option (String → String → String)) (mask : String → String)
    (question : String) (entry0 : SessionEntry) (r1 : ModelResponse)
    (h1 : model question entry0.history = Except.ok r1)
    (hM : pyStartsWith (pyUpper (pyStrip r1.content)) "FETCH" = false) :
    dispatch_core model fetchResult pfd mask question entry0
      = (DispatchResult.ok (pyStrip r1.content)
          (extract_token_usage r1).1 (extract_token_usage r1).2
          { entry0 with
              history := entry0.history
                ++ [⟨"user", question⟩, ⟨"assistant", r1.content⟩]
              token_usage :=
                entry0.token_usage.add (extract_token_usage r1).1
                  (extract_token_usage r1).2 }
          [Event.modelInvoke 1 question],
         [extract_token_usage r1])
    ∧ (dispatch_core model fetchResult pfd mask question entry0).1.events.countP
        Event.isFetch = 0
    ∧ (dispatch_core model fetchResult pfd mask question entry0).1.events.countP
        Event.isInvoke = 1 := by
  have main :
      dispatch_core model fetchResult pfd mask question entry0
        = (DispatchResult.ok (pyStrip r1.content)
            (extract_token_usage r1).1 (extract_token_usage r1).2
            { entry0 with
                history := entry0.history
                  ++ [⟨"user", question⟩, ⟨"assistant", r1.content⟩]
                token_usage :=
                  entry0.token_usage.add (extract_token_usage r1).1
                    (extract_token_usage r1).2 }
            [Event.modelInvoke 1 question],
           [extract_token_usage r1]) := by
    simp [dispatch_core, runInvoke, h1, hM, track_and_log_token_usage]
  refine ⟨main, ?_, ?_⟩ <;>
    simp [main, DispatchResult.events, List.countP_cons, Event.isFetch, Event.isInvoke]

/-- C6: whenever the stripped first response does not begin with the
marker, process_chat_message performs exactly one model invocation (the
trace is exactly [first invocation]: no fetch event) and returns that
response text unchanged aside from whitespace stripping, together with
exactly that invocation's token usage. -/
theorem analysis_mode_single (model : Model) (fetchResult : Except String String)
    (pfd : Option (String → String → String)) (mask : String → String)
    (store : Store) (profile : AgentProfile) (question sid : String)
    (i1 i2 i3 : Nat) (entry0 : SessionEntry) (r1 : ModelResponse)
    (hE : (get_or_create store sid profile i1 i2 i3).1 = entry0)
    (h1 : model question entry0.history = Except.ok r1)
    (hM : pyStartsWith (pyUpper (pyStrip r1.content)) "FETCH" = false) :
    (process_chat_message model fetchResult pfd mask store profile question sid i1 i2 i3).1
      = (DispatchResult.ok (pyStrip r1.content)
          (extract_token_usage r1).1 (extract_token_usage r1).2
          { entry0 with
              history := entry0.history
                ++ [⟨"user", question⟩, ⟨"assistant", r1.content⟩]
              token_usage :=
                entry0.token_usage.add (extract_token_usage r1).1
                  (extract_token_usage r1).2 }
          [Event.modelInvoke 1 question],
         [extract_token_usage r1])
    ∧ (process_chat_message model fetchResult pfd mask store profile question sid
        i1 i2 i3).1.1.events.countP Event.isFetch = 0
    ∧ (process_chat_message model fetchResult pfd mask store profile question sid
        i1 i2 i3).1.1.events.countP Event.isInvoke = 1 := by
  subst hE
  exact dispatch_core_analysis_mode model fetchResult pfd mask question
    (get_or_create store sid profile i1 i2 i3).1 r1 h1 hM

/-- Witness for C6 at a concrete model whose reply carries no marker. -/
theorem analysis_mode_single_witness :
    (process_chat_message wModelPlain (Except.ok "[]") none id (fun _ => none)
        wProfile "ask" "s1" 7 8 9).1
      = (DispatchResult.ok "Thanks for your question." 5 6
          { wEntry with
              history := [⟨"user", "ask"⟩, ⟨"assistant", " Thanks for your question. "⟩]
              token_usage := { input_tokens := 5, output_tokens := 6 } }
          [Event.modelInvoke 1 "ask"],
         [(5, 6)])
    ∧ (process_chat_message wModelPlain (Except.ok "[]") none id (fun _ => none)
        wProfile "ask" "s1" 7 8 9).1.1.events.countP Event.isFetch = 0 := by
  have h := analysis_mode_single wModelPlain (Except.ok "[]") none id (fun _ => none)
    wProfile "ask" "s1" 7 8 9 wEntry
    ⟨" Thanks for your question. ", some (5, 6)⟩ rfl rfl rfl
  refine ⟨?_, h.2.1⟩
  rw [h.1]
  rfl

/-! ## Claim C4 -/

/-- Helper: failure cases of the dispatch body. -/
theorem dispatch_core_invoke_failure (model : Model)
    (fetchResult : Except String String)
    (pfd : Option (String → String → String)) (mask : String → String)
    (question : String) (entry0 : SessionEntry) :
    (∀ err, model question entry0.history = Except.error err →
        dispatch_core model fetchResult pfd mask question entry0
          = (DispatchResult.raised err entry0 [Event.modelInvoke 1 question], []))
    ∧ (∀ r1 err,
        model question entry0.history = Except.ok r1 →
        pyStartsWith (pyUpper (pyStrip r1.content)) "FETCH" = true →
        model
          (format_follow_up (pyStrip (pySliceFrom 6 (pyStrip r1.content)))
            (apply_processor pfd mask (fetch_people fetchResult)
              (pyStrip (pySliceFrom 6 (pyStrip r1.content)))))
          (entry0.history ++ [⟨"user", question⟩, ⟨"assistant", r1.content⟩])
          = Except.error err →
        dispatch_core model fetchResult pfd mask question entry0
          = (DispatchResult.raised err
              { entry0 with
                  history := entry0.history
                    ++ [⟨"user", question⟩, ⟨"assistant", r1.content⟩]
                  token_usage :=
                    entry0.token_usage.add (extract_token_usage r1).1
                      (extract_token_usage r1).2 }
              [Event.modelInvoke 1 question,
               Event.fetchCall (pyStrip (pySliceFrom 6 (pyStrip r1.content))),
               Event.modelInvoke 2
                 (format_follow_up (pyStrip (pySliceFrom 6 (pyStrip r1.content)))
                   (apply_processor pfd mask (fetch_people fetchResult)
                     (pyStrip (pySliceFrom 6 (pyStrip r1.content)))))],
             [extract_token_usage r1])) := by
  constructor
  · intro err h1
    simp [dispatch_core, runInvoke, h1]
  · intro r1 err h1 hM h2
    simp [dispatch_core, runInvoke, h1, hM, h2, track_and_log_token_usage]

/-- C4: a raising model invocation propagates its error to the caller of
process_chat_message with no retry, and the session is left unmodified by
the failed call.  First part: if the first invocation raises, the outcome
is exactly that raised error with the session entry untouched (same
history, same ledger) and a trace showing the single attempted
invocation.  Second part: if the second invocation raises, the outcome is
exactly that raised error with the session entry carrying only the first
invocation's history turns and ledger pair — nothing of the failed second
invocation — and a trace showing each call attempted once. -/
theorem invoke_failure_session_unchanged (model : Model)
    (fetchResult : Except String String)
    (pfd : Option (String → String → String)) (mask : String → String)
    (store : Store) (profile : AgentProfile) (question sid : String)
    (i1 i2 i3 : Nat) (entry0 : SessionEntry)
    (hE : (get_or_create store sid profile i1 i2 i3).1 = entry0) :
    (∀ err, model question entry0.history = Except.error err →
        (process_chat_message model fetchResult pfd mask store profile question sid
            i1 i2 i3).1
          = (DispatchResult.raised err entry0 [Event.modelInvoke 1 question], []))
    ∧ (∀ r1 err,
        model question entry0.history = Except.ok r1 →
        pyStartsWith (pyUpper (pyStrip r1.content)) "FETCH" = true →
        model
          (format_follow_up (pyStrip (pySliceFrom 6 (pyStrip r1.content)))
            (apply_processor pfd mask (fetch_people fetchResult)
              (pyStrip (pySliceFrom 6 (pyStrip r1.content)))))
          (entry0.history ++ [⟨"user", question⟩, ⟨"assistant", r1.content⟩])
          = Except.error err →
        (process_chat_message model fetchResult pfd mask store profile question sid
            i1 i2 i3).1
          = (DispatchResult.raised err
              { entry0 with
                  history := entry0.history
                    ++ [⟨"user", question⟩, ⟨"assistant", r1.content⟩]
                  token_usage :=
                    entry0.token_usage.add (extract_token_usage r1).1
                      (extract_token_usage r1).2 }
              [Event.modelInvoke 1 question,
               Event.fetchCall (pyStrip (pySliceFrom 6 (pyStrip r1.content))),
               Event.modelInvoke 2
                 (format_follow_up (pyStrip (pySliceFrom 6 (pyStrip r1.content)))
                   (apply_processor pfd mask (fetch_people fetchResult)
                     (pyStrip (pySliceFrom 6 (pyStrip r1.content)))))],
             [extract_token_usage r1])) := by
  subst hE
  exact dispatch_core_invoke_failure model fetchResult pfd mask question
    (get_or_create store sid profile i1 i2 i3).1

/-- Witness for C4: a model raising on the first invocation leaves the
session entry exactly as it was; a model raising on the follow-up leaves
only the first invocation's updates. -/
theorem invoke_failure_session_unchanged_witness :
    (process_chat_message wModelBoom (Except.ok "[]") none id (fun _ => none)
        wProfile "ask" "s1" 7 8 9).1
      = (DispatchResult.raised "provider timeout" wEntry [Event.modelInvoke 1 "ask"], [])
    ∧ (process_chat_message wModelBoom2 (Except.ok "[]") none id (fun _ => none)
        wProfile "ask" "s1" 7 8 9).1.1.entry.token_usage
      = { input_tokens := 1, output_tokens := 2 }
    ∧ (process_chat_message wModelBoom2 (Except.ok "[]") none id (fun _ => none)
        wProfile "ask" "s1" 7 8 9).1.1.entry.history
      = [⟨"user", "ask"⟩, ⟨"assistant", "FETCH: Coogee"⟩] := by
  refine ⟨?_, ?_, ?_⟩
  · exact (invoke_failure_session_unchanged wModelBoom (Except.ok "[]") none id
      (fun _ => none) wProfile "ask" "s1" 7 8 9 wEntry rfl).1 "provider timeout" rfl
  · rw [(invoke_failure_session_unchanged wModelBoom2 (Except.ok "[]") none id
      (fun _ => none) wProfile "ask" "s1" 7 8 9 wEntry rfl).2
      ⟨"FETCH: Coogee", some (1, 2)⟩ "provider timeout" rfl rfl rfl]
    rfl
  · rw [(invoke_failure_session_unchanged wModelBoom2 (Except.ok "[]") none id
      (fun _ => none) wProfile "ask" "s1" 7 8 9 wEntry rfl).2
      ⟨"FETCH: Coogee", some (1, 2)⟩ "provider timeout" rfl rfl rfl]
    rfl

/-! ## Claim C5 -/

/-- Helper: fetch failure in the dispatch body. -/
theorem dispatch_core_fetch_failure (model : Model) (err : String)
    (pfd : Option (String → String → String)) (mask : String → String)
    (question : String) (entry0 : SessionEntry) (r1 r2 : ModelResponse)
    (query follow_up : String)
    (h1 : model question entry0.history = Except.ok r1)
    (hM : pyStartsWith (pyUpper (pyStrip r1.content)) "FETCH" = true)
    (hq : query = pyStrip (pySliceFrom 6 (pyStrip r1.content)))
    (hfu : follow_up = format_follow_up query
        (apply_processor pfd mask ("Error fetching data: " ++ err) query))
    (h2 : model follow_up
        (entry0.history ++ [⟨"user", question⟩, ⟨"assistant", r1.content⟩])
        = Except.ok r2) :
    fetch_people (Except.error err) = "Error fetching data: " ++ err
    ∧ dispatch_core model (Except.error err) pfd mask question entry0
        = (DispatchResult.ok (pyStrip r2.content)
            ((extract_token_usage r1).1 + (extract_token_usage r2).1)
            ((extract_token_usage r1).2 + (extract_token_usage r2).2)
            { entry0 with
                history := entry0.history
                  ++ [⟨"user", question⟩, ⟨"assistant", r1.content⟩]
                  ++ [⟨"user", follow_up⟩, ⟨"assistant", r2.content⟩]
                token_usage :=
                  (entry0.token_usage.add (extract_token_usage r1).1
                    (extract_token_usage r1).2).add
                    (extract_token_usage r2).1 (extract_token_usage r2).2 }
            [Event.modelInvoke 1 question, Event.fetchCall query,
             Event.modelInvoke 2 follow_up],
           [extract_token_usage r1, extract_token_usage r2]) := by
  subst hq hfu
  refine ⟨rfl, ?_⟩
  simp [dispatch_core, runInvoke, h1, hM, h2, track_and_log_token_usage,
    fetch_people, List.append_assoc]

/-- C5: fetch_people never raises — on an underlying request failure it
returns exactly the string "Error fetching data: " followed by the error
— and process_chat_message still performs the second invocation with that
string consumed as the data of the follow-up prompt, returning the
stripped second response as a final textual answer. -/
theorem fetch_failure_graceful (model : Model) (err : String)
    (pfd : Option (String → String → String)) (mask : String → String)
    (store : Store) (profile : AgentProfile) (question sid : String)
    (i1 i2 i3 : Nat) (entry0 : SessionEntry) (r1 r2 : ModelResponse)
    (query follow_up : String)
    (hE : (get_or_create store sid profile i1 i2 i3).1 = entry0)
    (h1 : model question entry0.history = Except.ok r1)
    (hM : pyStartsWith (pyUpper (pyStrip r1.content)) "FETCH" = true)
    (hq : query = pyStrip (pySliceFrom 6 (pyStrip r1.content)))
    (hfu : follow_up = format_follow_up query
        (apply_processor pfd mask ("Error fetching data: " ++ err) query))
    (h2 : model follow_up
        (entry0.history ++ [⟨"user", question⟩, ⟨"assistant", r1.content⟩])
        = Except.ok r2) :
    fetch_people (Except.error err) = "Error fetching data: " ++ err
    ∧ (process_chat_message model (Except.error err) pfd mask store profile question
          sid i1 i2 i3).1
        = (DispatchResult.ok (pyStrip r2.content)
            ((extract_token_usage r1).1 + (extract_token_usage r2).1)
            ((extract_token_usage r1).2 + (extract_token_usage r2).2)
            { entry0 with
                history := entry0.history
                  ++ [⟨"user", question⟩, ⟨"assistant", r1.content⟩]
                  ++ [⟨"user", follow_up⟩, ⟨"assistant", r2.content⟩]
                token_usage :=
                  (entry0.token_usage.add (extract_token_usage r1).1
                    (extract_token_usage r1).2).add
                    (extract_token_usage r2).1 (extract_token_usage r2).2 }
            [Event.modelInvoke 1 question, Event.fetchCall query,
             Event.modelInvoke 2 follow_up],
           [extract_token_usage r1, extract_token_usage r2]) := by
  subst hE
  exact dispatch_core_fetch_failure model err pfd mask question
    (get_or_create store sid profile i1 i2 i3).1 r1 r2 query follow_up h1 hM hq hfu h2

/-- Witness for C5: with the fetch failing with "timeout",
process_chat_message still returns the stripped second reply as final,
with both invocations' usage summed. -/
theorem fetch_failure_graceful_witness :
    fetch_people (Except.error "timeout") = "Error fetching data: timeout"
    ∧ (process_chat_message wModelFetch (Except.error "timeout") none id
        (fun _ => none) wProfile "ask" "s1" 7 8 9).1.1
        = DispatchResult.ok "FETCH again" 4 6
            { wEntry with
                history := [⟨"user", "ask"⟩, ⟨"assistant", "  FETCH: Bondi "⟩,
                  ⟨"user", format_follow_up "Bondi" ("Error fetching data: " ++ "timeout")⟩,
                  ⟨"assistant", "FETCH again"⟩]
                token_usage := { input_tokens := 4, output_tokens := 6 } }
            [Event.modelInvoke 1 "ask", Event.fetchCall "Bondi",
             Event.modelInvoke 2
               (format_follow_up "Bondi" ("Error fetching data: " ++ "timeout"))] := by
  have h := fetch_failure_graceful wModelFetch "timeout" none id (fun _ => none)
    wProfile "ask" "s1" 7 8 9 wEntry
    ⟨"  FETCH: Bondi ", some (1, 2)⟩ ⟨"FETCH again", some (3, 4)⟩
    "Bondi"
    (format_follow_up "Bondi"
      (apply_processor none id ("Error fetching data: " ++ "timeout") "Bondi"))
    rfl rfl rfl rfl rfl rfl
  refine ⟨h.1, ?_⟩
  rw [h.2]
  rfl

/-! ## Streaming helper lemmas -/

/-- yieldsOf distributes over trace concatenation. -/
theorem yieldsOf_append (l1 l2 : List StreamEvent) :
    yieldsOf (l1 ++ l2) = yieldsOf l1 ++ yieldsOf l2 := by
  simp [yieldsOf, List.filterMap_append]

/-- yieldsOf of the empty trace. -/
theorem yieldsOf_nil : yieldsOf [] = [] := rfl

/-- A fetch-gateway call contributes no yielded element. -/
theorem yieldsOf_fetch_cons (q : String) (l : List StreamEvent) :
    yieldsOf (StreamEvent.fetchCall q :: l) = yieldsOf l := by
  simp [yieldsOf, List.filterMap_cons]

/-- An emission contributes exactly its element. -/
theorem yieldsOf_emit_cons (x : StreamElement) (l : List StreamEvent) :
    yieldsOf (StreamEvent.emit x :: l) = x :: yieldsOf l := by
  simp [yieldsOf, List.filterMap_cons]

/-- The yields of a block of fragment emissions are those fragments with
zero counts. -/
theorem yieldsOf_fragments (l : List String) :
    yieldsOf (l.map fun t => StreamEvent.emit ⟨t, 0, 0⟩)
      = l.map fun t => (⟨t, 0, 0⟩ : StreamElement) := by
  induction l with
  | nil => rfl
  | cons a l ih => rw [List.map_cons, yieldsOf_emit_cons, ih, List.map_cons]

/-! ## Claim C7 -/

/-- Helper: structure of the streaming dispatch body in the marker
case. -/
theorem stream_core_two_phase (inv1 inv2 : StreamInvocation)
    (fetchResult : Except String String)
    (pfd : Option (String → String → String)) (mask : String → String)
    (question : String) (entry0 : SessionEntry)
    (query follow_up : String) (acct1 acct2 : (Nat × Nat) × TokenUsage)
    (hM : pyStartsWith (pyUpper (pyStrip (pyConcat inv1.fragments))) "FETCH" = true)
    (hq : query = pyStrip (pySliceFrom 6 (pyStrip (pyConcat inv1.fragments))))
    (hfu : follow_up = format_follow_up query
        (apply_processor pfd mask (fetch_people fetchResult) query))
    (ha1 : acct1 = stream_token_accounting inv1.usage
        (pyStrip (pyConcat inv1.fragments)) entry0.token_usage)
    (ha2 : acct2 = stream_token_accounting inv2.usage
        (pyStrip (pyConcat inv2.fragments)) acct1.2) :
    stream_core inv1 inv2 fetchResult pfd mask question entry0
      = ((inv1.fragments.map fun t => StreamEvent.emit ⟨t, 0, 0⟩)
          ++ [StreamEvent.fetchCall query]
          ++ (inv2.fragments.map fun t => StreamEvent.emit ⟨t, 0, 0⟩)
          ++ [StreamEvent.emit ⟨"", acct1.1.1 + acct2.1.1, acct1.1.2 + acct2.1.2⟩],
         { entry0 with
             history := entry0.history
               ++ [⟨"user", question⟩, ⟨"assistant", pyConcat inv1.fragments⟩]
               ++ [⟨"user", follow_up⟩, ⟨"assistant", pyConcat inv2.fragments⟩]
             token_usage := acct2.2 },
         inv1.usage.toList ++ inv2.usage.toList) := by
  subst hq hfu ha1 ha2
  simp [stream_core, hM, List.append_assoc]

/-- C7: in the streaming variant with a marker response, the trace of
process_chat_message_stream is exactly: all fragments of the first
invocation (in order, counts (0, 0)), then the single fetch-gateway call,
then all fragments of the second invocation, then one final element with
empty text carrying the summed request totals of the whole dispatch.
Hence every first-invocation fragment is delivered before the fetch round
starts, no second-invocation fragment is emitted before the fetch has
completed, and the second prompt recorded in the history is the follow-up
built from the processed fetch result. -/
theorem stream_two_phase (inv1 inv2 : StreamInvocation)
    (fetchResult : Except String String)
    (pfd : Option (String → String → String)) (mask : String → String)
    (store : Store) (profile : AgentProfile) (question sid : String)
    (i1 i2 i3 : Nat) (entry0 : SessionEntry)
    (query follow_up : String) (acct1 acct2 : (Nat × Nat) × TokenUsage)
    (hE : (get_or_create store sid profile i1 i2 i3).1 = entry0)
    (hM : pyStartsWith (pyUpper (pyStrip (pyConcat inv1.fragments))) "FETCH" = true)
    (hq : query = pyStrip (pySliceFrom 6 (pyStrip (pyConcat inv1.fragments))))
    (hfu : follow_up = format_follow_up query
        (apply_processor pfd mask (fetch_people fetchResult) query))
    (ha1 : acct1 = stream_token_accounting inv1.usage
        (pyStrip (pyConcat inv1.fragments)) entry0.token_usage)
    (ha2 : acct2 = stream_token_accounting inv2.usage
        (pyStrip (pyConcat inv2.fragments)) acct1.2) :
    (process_chat_message_stream inv1 inv2 fetchResult pfd mask store profile
        question sid i1 i2 i3).1
      = ((inv1.fragments.map fun t => StreamEvent.emit ⟨t, 0, 0⟩)
          ++ [StreamEvent.fetchCall query]
          ++ (inv2.fragments.map fun t => StreamEvent.emit ⟨t, 0, 0⟩)
          ++ [StreamEvent.emit ⟨"", acct1.1.1 + acct2.1.1, acct1.1.2 + acct2.1.2⟩],
         { entry0 with
             history := entry0.history
               ++ [⟨"user", question⟩, ⟨"assistant", pyConcat inv1.fragments⟩]
               ++ [⟨"user", follow_up⟩, ⟨"assistant", pyConcat inv2.fragments⟩]
             token_usage := acct2.2 },
         inv1.usage.toList ++ inv2.usage.toList) := by
  subst hE
  exact stream_core_two_phase inv1 inv2 fetchResult pfd mask question
    (get_or_create store sid profile i1 i2 i3).1 query follow_up acct1 acct2
    hM hq hfu ha1 ha2

/-- Witness for C7 at a concrete streaming run whose marker is split
across two fragments. -/
theorem stream_two_phase_witness :
    (process_chat_message_stream ⟨["FET", "CH: Bondi"], some (1, 2)⟩
        ⟨["Sum", "mary"], some (3, 4)⟩ (Except.ok "[]") none id (fun _ => none)
        wProfile "q" "s1" 7 8 9).1.1
      = [StreamEvent.emit ⟨"FET", 0, 0⟩, StreamEvent.emit ⟨"CH: Bondi", 0, 0⟩,
         StreamEvent.fetchCall "Bondi",
         StreamEvent.emit ⟨"Sum", 0, 0⟩, StreamEvent.emit ⟨"mary", 0, 0⟩,
         StreamEvent.emit ⟨"", 4, 6⟩] := by
  have h := stream_two_phase ⟨["FET", "CH: Bondi"], some (1, 2)⟩
    ⟨["Sum", "mary"], some (3, 4)⟩ (Except.ok "[]") none id (fun _ => none)
    wProfile "q" "s1" 7 8 9 wEntry
    "Bondi"
    (format_follow_up "Bondi" (apply_processor none id (fetch_people (Except.ok "[]")) "Bondi"))
    (stream_token_accounting (some (1, 2))
      (pyStrip (pyConcat ["FET", "CH: Bondi"])) wEntry.token_usage)
    (stream_token_accounting (some (3, 4)) (pyStrip (pyConcat ["Sum", "mary"]))
      (stream_token_accounting (some (1, 2))
        (pyStrip (pyConcat ["FET", "CH: Bondi"])) wEntry.token_usage).2)
    rfl rfl rfl rfl rfl rfl
  rw [h]
  rfl

/-! ## Claim C9 -/

/-- C9 counterexample: a concrete streaming run whose first invocation has
no terminal token-usage metadata and accumulates 28 characters (24 of
text plus 4 trailing spaces).  The claim as stated — the token counts for
the invocation approximated as the accumulated response's character count
integer-divided by 4 (= 7) rather than left at zero — is false here: the
final element of process_chat_message_stream attributes (0, 6): the input
count IS left at zero, and the output count uses the stripped length 24,
not 28. -/
theorem stream_estimate_cex :
    (process_chat_message_stream ⟨["Hello world, how are you", "    "], none⟩
        ⟨[], none⟩ (Except.ok "[]") none id (fun _ => none) wProfile "q" "s1"
        7 8 9).1.1
      = [StreamEvent.emit ⟨"Hello world, how are you", 0, 0⟩,
         StreamEvent.emit ⟨"    ", 0, 0⟩,
         StreamEvent.emit ⟨"", 0, 6⟩]
    ∧ pyLen (pyConcat ["Hello world, how are you", "    "]) / 4 = 7
    ∧ ¬ ((0 : Nat) = 7) ∧ ¬ ((6 : Nat) = 7) :=
  ⟨rfl, rfl, by decide, by decide⟩

/-- Helper: the no-metadata, no-marker case of the streaming dispatch
body. -/
theorem stream_core_estimate (inv1 inv2 : StreamInvocation)
    (fetchResult : Except String String)
    (pfd : Option (String → String → String)) (mask : String → String)
    (question : String) (entry0 : SessionEntry)
    (hu : inv1.usage = none)
    (hM : pyStartsWith (pyUpper (pyStrip (pyConcat inv1.fragments))) "FETCH" = false) :
    (∀ (resp : String) (t : TokenUsage),
        stream_token_accounting none resp t = ((0, pyLen resp / 4), t))
    ∧ stream_core inv1 inv2 fetchResult pfd mask question entry0
        = ((inv1.fragments.map fun t => StreamEvent.emit ⟨t, 0, 0⟩)
            ++ [StreamEvent.emit ⟨"", 0, pyLen (pyStrip (pyConcat inv1.fragments)) / 4⟩],
           { entry0 with
               history := entry0.history
                 ++ [⟨"user", question⟩, ⟨"assistant", pyConcat inv1.fragments⟩]
               token_usage := entry0.token_usage },
           []) := by
  constructor
  · intro resp t; rfl
  · simp [stream_core, hM, hu, stream_token_accounting]

/-- C9 amended: whenever terminal token-usage metadata is unavailable for
an invocation, the output token count attributed to it is the
deterministic estimate len // 4 applied to the whitespace-stripped
accumulated response, while the input token count is left at zero (and
the session ledger is not updated for that invocation).  Stated for
stream_token_accounting in general and for a no-marker
process_chat_message_stream run whose invocation lacks metadata. -/
theorem stream_estimate_amended (inv1 inv2 : StreamInvocation)
    (fetchResult : Except String String)
    (pfd : Option (String → String → String)) (mask : String → String)
    (store : Store) (profile : AgentProfile) (question sid : String)
    (i1 i2 i3 : Nat) (entry0 : SessionEntry)
    (hE : (get_or_create store sid profile i1 i2 i3).1 = entry0)
    (hu : inv1.usage = none)
    (hM : pyStartsWith (pyUpper (pyStrip (pyConcat inv1.fragments))) "FETCH" = false) :
    (∀ (resp : String) (t : TokenUsage),
        stream_token_accounting none resp t = ((0, pyLen resp / 4), t))
    ∧ (process_chat_message_stream inv1 inv2 fetchResult pfd mask store profile
          question sid i1 i2 i3).1
        = ((inv1.fragments.map fun t => StreamEvent.emit ⟨t, 0, 0⟩)
            ++ [StreamEvent.emit ⟨"", 0, pyLen (pyStrip (pyConcat inv1.fragments)) / 4⟩],
           { entry0 with
               history := entry0.history
                 ++ [⟨"user", question⟩, ⟨"assistant", pyConcat inv1.fragments⟩]
               token_usage := entry0.token_usage },
           []) := by
  subst hE
  exact stream_core_estimate inv1 inv2 fetchResult pfd mask question
    (get_or_create store sid profile i1 i2 i3).1 hu hM

/-- Witness for the amended C9 at a concrete run: the final element
carries (0, 32 / 4). -/
theorem stream_estimate_amended_witness :
    (process_chat_message_stream ⟨["Hello there friend, how are you?"], none⟩
        ⟨[], none⟩ (Except.ok "[]") none id (fun _ => none) wProfile "q" "s1"
        7 8 9).1.1
      = [StreamEvent.emit ⟨"Hello there friend, how are you?", 0, 0⟩,
         StreamEvent.emit ⟨"", 0, 8⟩] := by
  have h := stream_estimate_amended ⟨["Hello there friend, how are you?"], none⟩
    ⟨[], none⟩ (Except.ok "[]") none id (fun _ => none) wProfile "q" "s1"
    7 8 9 wEntry rfl rfl rfl
  rw [h.2]
  rfl

/-! ## Claim C10 -/

/-- C10 counterexample: a concrete streaming run in which the model emits
an empty fragment.  The element ("", 0, 0) is yielded before the last
element, so the claim as stated — every element before the last carries a
non-empty text fragment — is false at this input (its universal clause is
refuted). -/
theorem stream_yields_cex :
    yieldsOf (process_chat_message_stream ⟨["Hi", ""], some (3, 2)⟩ ⟨[], none⟩
        (Except.ok "[]") none id (fun _ => none) wProfile "q" "s1" 7 8 9).1.1
      = [⟨"Hi", 0, 0⟩, ⟨"", 0, 0⟩, ⟨"", 3, 2⟩]
    ∧ ¬ (∀ e ∈ (yieldsOf (process_chat_message_stream ⟨["Hi", ""], some (3, 2)⟩
          ⟨[], none⟩ (Except.ok "[]") none id (fun _ => none) wProfile "q" "s1"
          7 8 9).1.1).dropLast,
            e.text ≠ "") :=
  ⟨rfl, by decide⟩

/-- Helper: yields structure of the streaming dispatch body. -/
theorem stream_core_yields (inv1 inv2 : StreamInvocation)
    (fetchResult : Except String String)
    (pfd : Option (String → String → String)) (mask : String → String)
    (question : String) (entry0 : SessionEntry) :
    yieldsOf (stream_core inv1 inv2 fetchResult pfd mask question entry0).1
      = ((inv1.fragments
            ++ if pyStartsWith (pyUpper (pyStrip (pyConcat inv1.fragments))) "FETCH"
               then inv2.fragments else []).map
          fun t => (⟨t, 0, 0⟩ : StreamElement))
        ++ [⟨"", (stream_request_totals inv1 inv2).1,
              (stream_request_totals inv1 inv2).2⟩] := by
  by_cases hM : pyStartsWith (pyUpper (pyStrip (pyConcat inv1.fragments))) "FETCH" = true
  · rw [stream_request_totals]
    simp only [stream_core, hM, if_true]
    rw [stream_acct_fst inv1.usage (pyStrip (pyConcat inv1.fragments))
        entry0.token_usage {},
      stream_acct_fst inv2.usage (pyStrip (pyConcat inv2.fragments)) _ {}]
    simp [yieldsOf_append, yieldsOf_fragments, yieldsOf_fetch_cons,
      yieldsOf_emit_cons, yieldsOf_nil, List.map_append]
  · rw [stream_request_totals]
    rw [Bool.not_eq_true] at hM
    simp only [stream_core, hM, if_false, Bool.false_eq_true]
    rw [stream_acct_fst inv1.usage (pyStrip (pyConcat inv1.fragments))
        entry0.token_usage {}]
    simp [yieldsOf_append, yieldsOf_fragments, yieldsOf_fetch_cons,
      yieldsOf_emit_cons, yieldsOf_nil]

/-- C10 amended: the yielded sequence of process_chat_message_stream is
exactly the model's fragments — each with token counts (0, 0), its text
being the emitted fragment, which may be empty — followed by one single
final element whose text is the empty string and which carries the
per-request input and output token totals; consumers therefore obtain
the request's usage from the final element. -/
theorem stream_yields_structure (inv1 inv2 : StreamInvocation)
    (fetchResult : Except String String)
    (pfd : Option (String → String → String)) (mask : String → String)
    (store : Store) (profile : AgentProfile) (question sid : String)
    (i1 i2 i3 : Nat) :
    yieldsOf (process_chat_message_stream inv1 inv2 fetchResult pfd mask store
        profile question sid i1 i2 i3).1.1
      = ((inv1.fragments
            ++ if pyStartsWith (pyUpper (pyStrip (pyConcat inv1.fragments))) "FETCH"
               then inv2.fragments else []).map
          fun t => (⟨t, 0, 0⟩ : StreamElement))
        ++ [⟨"", (stream_request_totals inv1 inv2).1,
              (stream_request_totals inv1 inv2).2⟩] :=
  stream_core_yields inv1 inv2 fetchResult pfd mask question
    (get_or_create store sid profile i1 i2 i3).1

/-! ## Claim C8 -/

/-- C8 counterexample: the trimmed first response "FETCHXY" is classified
as query mode (it begins case-insensitively with FETCH), and the marker
present is the bare FETCH with no colon, so the substring after the
marker is "XY" — but the code always drops six characters and calls the
fetch gateway with "Y". -/
theorem fetch_query_cex :
    pyStartsWith (pyUpper (pyStrip "FETCHXY")) "FETCH" = true
    ∧ (process_chat_message wModelGlued (Except.ok "[]") none id (fun _ => none)
        wProfile "ask" "s1" 7 8 9).1.1.events[1]?
        = some (Event.fetchCall "Y")
    ∧ spec_fetch_query "FETCHXY" = "XY"
    ∧ ¬ (("Y" : String) = "XY") :=
  ⟨rfl, rfl, rfl, by decide⟩

/-- Helper: the query actually used by the dispatch body, and when it
agrees with the spec-side substring-after-marker reading. -/
theorem dispatch_core_fetch_query (model : Model) (fetchResult : Except String String)
    (pfd : Option (String → String → String)) (mask : String → String)
    (question : String) (entry0 : SessionEntry) (r1 : ModelResponse)
    (h1 : model question entry0.history = Except.ok r1)
    (hM : pyStartsWith (pyUpper (pyStrip r1.content)) "FETCH" = true) :
    (dispatch_core model fetchResult pfd mask question entry0).1.events[1]?
      = some (Event.fetchCall (pyStrip (pySliceFrom 6 (pyStrip r1.content))))
    ∧ (∀ response : String, pyStartsWith (pySliceFrom 5 response) ":" = true →
        pyStrip (pySliceFrom 6 response) = spec_fetch_query response)
    ∧ (∀ (response : String) (c : Char) (rest : List Char),
        (pySliceFrom 5 response).data = c :: rest → c.isWhitespace = true →
        pyStrip (pySliceFrom 6 response) = spec_fetch_query response)
    ∧ (∀ response : String, (pySliceFrom 5 response).data = [] →
        pyStrip (pySliceFrom 6 response) = spec_fetch_query response) := by
  refine ⟨?_, ?_, ?_, ?_⟩
  · simp only [dispatch_core, runInvoke, h1, hM, if_true]
    split <;> simp [DispatchResult.events]
  · intro response h
    simp [spec_fetch_query, h]
  · intro response c rest hdata hws
    have hd5 : response.data.drop 5 = c :: rest := hdata
    have hd6 : response.data.drop 6 = rest := by
      have hdd : List.drop 1 (List.drop 5 response.data) = List.drop 6 response.data := by
        rw [List.drop_drop]
      rw [← hdd, hd5]
      rfl
    have hcolon : pyStartsWith (pySliceFrom 5 response) ":" = false := by
      have hcne : (c = ':') = False := by
        simp only [eq_iff_iff, iff_false]
        intro hc
        rw [hc] at hws
        exact absurd hws (by decide)
      simp [pyStartsWith, pySliceFrom, hd5, charsStartWith, hcne]
    simp only [spec_fetch_query, hcolon, Bool.false_eq_true, if_false]
    show pyStrip ⟨response.data.drop 6⟩ = pyStrip ⟨response.data.drop 5⟩
    rw [hd5, hd6]
    simp [pyStrip, pyStripLeftChars, hws]
  · intro response hdata
    have hd5 : response.data.drop 5 = [] := hdata
    have hd6 : response.data.drop 6 = [] := by
      have hdd : List.drop 1 (List.drop 5 response.data) = List.drop 6 response.data := by
        rw [List.drop_drop]
      rw [← hdd, hd5]
      rfl
    have hcolon : pyStartsWith (pySliceFrom 5 response) ":" = false := by
      simp [pyStartsWith, pySliceFrom, hd5, charsStartWith]
    simp only [spec_fetch_query, hcolon, Bool.false_eq_true, if_false]
    show pyStrip ⟨response.data.drop 6⟩ = pyStrip ⟨response.data.drop 5⟩
    rw [hd5, hd6]

/-- C8 amended: in query mode the fetch query passed to the fetch gateway
by process_chat_message equals the trimmed first response with its first
six characters dropped and then stripped of surrounding whitespace.  This
coincides with the stripped substring after the marker (FETCH optionally
followed by a colon) whenever the character following FETCH is a colon,
is whitespace, or does not exist; only when FETCH is directly followed by
some other character does the code also drop that character. -/
theorem fetch_query_amended (model : Model) (fetchResult : Except String String)
    (pfd : Option (String → String → String)) (mask : String → String)
    (store : Store) (profile : AgentProfile) (question sid : String)
    (i1 i2 i3 : Nat) (entry0 : SessionEntry) (r1 : ModelResponse)
    (hE : (get_or_create store sid profile i1 i2 i3).1 = entry0)
    (h1 : model question entry0.history = Except.ok r1)
    (hM : pyStartsWith (pyUpper (pyStrip r1.content)) "FETCH" = true) :
    (process_chat_message model fetchResult pfd mask store profile question sid
        i1 i2 i3).1.1.events[1]?
      = some (Event.fetchCall (pyStrip (pySliceFrom 6 (pyStrip r1.content))))
    ∧ (∀ response : String, pyStartsWith (pySliceFrom 5 response) ":" = true →
        pyStrip (pySliceFrom 6 response) = spec_fetch_query response)
    ∧ (∀ (response : String) (c : Char) (rest : List Char),
        (pySliceFrom 5 response).data = c :: rest → c.isWhitespace = true →
        pyStrip (pySliceFrom 6 response) = spec_fetch_query response)
    ∧ (∀ response : String, (pySliceFrom 5 response).data = [] →
        pyStrip (pySliceFrom 6 response) = spec_fetch_query response) := by
  subst hE
  exact dispatch_core_fetch_query model fetchResult pfd mask question
    (get_or_create store sid profile i1 i2 i3).1 r1 h1 hM

/-- Witness for the amended C8: with first reply "  FETCH: Bondi " the
fetch gateway is called with "Bondi", and on that colon-marked response
the code's query agrees with the spec-side one. -/
theorem fetch_query_amended_witness :
    (process_chat_message wModelFetch (Except.ok "[]") none id (fun _ => none)
        wProfile "ask" "s1" 7 8 9).1.1.events[1]?
      = some (Event.fetchCall "Bondi")
    ∧ pyStrip (pySliceFrom 6 "FETCH: Bondi") = spec_fetch_query "FETCH: Bondi" := by
  have h := fetch_query_amended wModelFetch (Except.ok "[]") none id (fun _ => none)
    wProfile "ask" "s1" 7 8 9 wEntry ⟨"  FETCH: Bondi ", some (1, 2)⟩ rfl rfl rfl
  exact ⟨h.1, h.2.1 "FETCH: Bondi" rfl⟩

end ChatAgent
